import Mathlib

/-!
Verification development for the `ytdlp_gradio` repository
(`src/ytdlp_gradio/app.py`), a Gradio front end around the external
yt-dlp library.

Shallow embedding conventions:
  * Python strings are Lean `String`s; substring tests (`in`, `re.search`
    on literal patterns) are modelled by an executable search over
    `List Char` (`containsSub`).
  * The regex `youtube\.com/.*list=` is modelled by `searchSeq`: the two
    literal pieces must occur in order with no newline between them
    (Python's `.` does not match a newline by default).
  * Python ints are `Int` where subtraction occurs (`current_video["num"] - 1`),
    byte counters are `Nat`, and float arithmetic on progress fractions is
    modelled exactly over `ℚ`.
  * Side effects that the claims do not touch (directory creation, the
    Gradio widgets, the yt-dlp process itself) are not modelled; the calls
    into yt-dlp are oracles passed in as explicit arguments.
-/

/-- Does `pat` occur as a contiguous substring of `s`?  Models Python's
`in` operator on strings and `re.search` with a fully literal pattern. -/
def containsSub (pat : List Char) : List Char → Bool
  | [] => pat.isEmpty
  | c :: t => pat.isPrefixOf (c :: t) || containsSub pat t

/-- Does `p2` occur in `s` with only non-newline characters before it?
Models the `.*p2` tail of a Python regex (`.` does not match `'\n'`). -/
def afterNoNl (p2 : List Char) : List Char → Bool
  | [] => p2.isEmpty
  | c :: t => p2.isPrefixOf (c :: t) || (!(c = '\n') && afterNoNl p2 t)

/-- Does some position of `s` match `p1` followed (with no intervening
newline) by `p2`?  Models `re.search(r'p1.*p2', s) is not None`. -/
def searchSeq (p1 p2 : List Char) : List Char → Bool
  | [] => p1.isEmpty && afterNoNl p2 []
  | c :: t =>
    (p1.isPrefixOf (c :: t) && afterNoNl p2 ((c :: t).drop p1.length))
      || searchSeq p1 p2 t

/-- String-level wrapper of `containsSub`. -/
def strContains (pat s : String) : Bool := containsSub pat.data s.data

-- URL Utilities (app.py lines 10-24)

/-- `is_vimeo_url`: `re.search(r'vimeo\.com', url) is not None`. -/
def is_vimeo_url (url : String) : Bool :=
  containsSub "vimeo.com".data url.data

/-- `is_vimeo_showcase`: `re.search(r'vimeo\.com/showcase/', url) is not None`. -/
def is_vimeo_showcase (url : String) : Bool :=
  containsSub "vimeo.com/showcase/".data url.data

/-- `is_playlist`: YouTube playlist page, YouTube `list=` query parameter
(after `youtube.com/`, no newline between, per `re.search(r'youtube\.com/.*list=', url)`),
or a Vimeo showcase. -/
def is_playlist (url : String) : Bool :=
  containsSub "youtube.com/playlist".data url.data
    || searchSeq "youtube.com/".data "list=".data url.data
    || is_vimeo_showcase url

-- Basic lemmas about the substring search

theorem isPrefixOf_nil_left (s : List Char) : List.isPrefixOf [] s = true := by
  cases s <;> rfl

theorem containsSub_nil (t : List Char) : containsSub [] t = true := by
  cases t with
  | nil => rfl
  | cons c t => simp [containsSub, isPrefixOf_nil_left]

theorem afterNoNl_nil (t : List Char) : afterNoNl [] t = true := by
  cases t with
  | nil => rfl
  | cons c t => simp [afterNoNl, isPrefixOf_nil_left]

theorem isPrefixOf_self_append (p t : List Char) : p.isPrefixOf (p ++ t) = true := by
  induction p with
  | nil => exact isPrefixOf_nil_left t
  | cons a p ih => simp [List.isPrefixOf, ih]

theorem isPrefixOf_of_append_left (p q s : List Char)
    (h : (p ++ q).isPrefixOf s = true) : p.isPrefixOf s = true := by
  induction p generalizing s with
  | nil => exact isPrefixOf_nil_left s
  | cons a p ih =>
    cases s with
    | nil => simp [List.isPrefixOf] at h
    | cons b t =>
      simp only [List.cons_append, List.isPrefixOf, Bool.and_eq_true, beq_iff_eq] at h ⊢
      exact ⟨h.1, ih t h.2⟩

theorem containsSub_append_right (pat s t : List Char)
    (h : containsSub pat t = true) : containsSub pat (s ++ t) = true := by
  induction s with
  | nil => simpa using h
  | cons a s ih =>
    simp only [List.cons_append, containsSub, Bool.or_eq_true]
    exact Or.inr ih

theorem containsSub_self_append (pat t : List Char) :
    containsSub pat (pat ++ t) = true := by
  cases pat with
  | nil => exact containsSub_nil ([] ++ t)
  | cons a p =>
    simp only [List.cons_append, containsSub, Bool.or_eq_true]
    exact Or.inl (isPrefixOf_self_append (a :: p) t)

theorem containsSub_of_decomp (pat a b : List Char) :
    containsSub pat (a ++ pat ++ b) = true := by
  rw [List.append_assoc]
  exact containsSub_append_right pat a (pat ++ b) (containsSub_self_append pat b)

theorem containsSub_of_pat_append (p q s : List Char)
    (h : containsSub (p ++ q) s = true) : containsSub p s = true := by
  induction s with
  | nil =>
    simp only [containsSub, List.isEmpty_iff, List.append_eq_nil] at h ⊢
    exact h.1
  | cons c t ih =>
    simp only [containsSub, Bool.or_eq_true] at h ⊢
    rcases h with h | h
    · exact Or.inl (isPrefixOf_of_append_left p q (c :: t) h)
    · exact Or.inr (ih h)

theorem afterNoNl_of_decomp (p2 b c : List Char) (hb : '\n' ∉ b) :
    afterNoNl p2 (b ++ p2 ++ c) = true := by
  induction b with
  | nil =>
    cases p2 with
    | nil => exact afterNoNl_nil ([] ++ [] ++ c)
    | cons x p =>
      simp only [List.nil_append, List.cons_append, afterNoNl, Bool.or_eq_true]
      exact Or.inl (isPrefixOf_self_append (x :: p) c)
  | cons x b ih =>
    have hx : x ≠ '\n' := fun h => hb (h ▸ List.mem_cons_self x b)
    have hb' : '\n' ∉ b := fun h => hb (List.mem_cons_of_mem x h)
    simp only [List.cons_append, afterNoNl, Bool.or_eq_true, Bool.and_eq_true,
      Bool.not_eq_true', decide_eq_false_iff_not]
    exact Or.inr ⟨hx, ih hb'⟩

theorem searchSeq_append_head (p1 p2 r : List Char) (h : afterNoNl p2 r = true) :
    searchSeq p1 p2 (p1 ++ r) = true := by
  cases p1 with
  | nil =>
    cases r with
    | nil =>
      cases p2 with
      | nil => rfl
      | cons y q => simp [afterNoNl] at h
    | cons y t =>
      rw [List.nil_append]
      simp only [searchSeq, Bool.or_eq_true, Bool.and_eq_true]
      exact Or.inl ⟨isPrefixOf_nil_left (y :: t), by simpa using h⟩
  | cons x p =>
    rw [List.cons_append]
    simp only [searchSeq, Bool.or_eq_true, Bool.and_eq_true]
    refine Or.inl ⟨?_, ?_⟩
    · rw [← List.cons_append]
      exact isPrefixOf_self_append (x :: p) r
    · rw [← List.cons_append, List.drop_left]
      exact h

theorem searchSeq_of_decomp (p1 p2 a b c : List Char) (hb : '\n' ∉ b) :
    searchSeq p1 p2 (a ++ p1 ++ b ++ p2 ++ c) = true := by
  induction a with
  | nil =>
    have h : afterNoNl p2 (b ++ p2 ++ c) = true := afterNoNl_of_decomp p2 b c hb
    have hh := searchSeq_append_head p1 p2 (b ++ p2 ++ c) h
    simpa [List.append_assoc] using hh
  | cons x a ih =>
    simp only [List.cons_append, searchSeq, Bool.or_eq_true]
    exact Or.inr (by simpa [List.append_assoc] using ih)

/-- C9: every URL that contains the YouTube playlist path, or a
`list=` query parameter after `youtube.com/` (with no newline between,
matching the regex), is classified as a playlist; every URL containing the
Vimeo showcase path is classified both as a playlist and as a showcase. -/
theorem c9_url_classification (url : String) :
    (∀ a b, url.data = a ++ "youtube.com/playlist".data ++ b → is_playlist url = true)
    ∧ (∀ a b c, url.data = a ++ "youtube.com/".data ++ b ++ "list=".data ++ c →
        '\n' ∉ b → is_playlist url = true)
    ∧ (∀ a b, url.data = a ++ "vimeo.com/showcase/".data ++ b →
        is_playlist url = true ∧ is_vimeo_showcase url = true) := by
  refine ⟨?_, ?_, ?_⟩
  · intro a b h
    have : containsSub "youtube.com/playlist".data url.data = true := by
      rw [h]; exact containsSub_of_decomp _ a b
    simp [is_playlist, this]
  · intro a b c h hb
    have : searchSeq "youtube.com/".data "list=".data url.data = true := by
      rw [h]; exact searchSeq_of_decomp _ _ a b c hb
    simp [is_playlist, this]
  · intro a b h
    have hsc : is_vimeo_showcase url = true := by
      unfold is_vimeo_showcase
      rw [h]; exact containsSub_of_decomp _ a b
    exact ⟨by simp [is_playlist, hsc], hsc⟩

/-- Witness for C9 at concrete URLs of each of the three shapes. -/
theorem c9_url_classification_witness :
    is_playlist "https://www.youtube.com/playlist?list=PL1" = true
    ∧ is_playlist "https://www.youtube.com/watch?v=abc&list=PL2" = true
    ∧ (is_playlist "https://vimeo.com/showcase/12345" = true
        ∧ is_vimeo_showcase "https://vimeo.com/showcase/12345" = true) := by
  refine ⟨?_, ?_, ?_⟩
  · exact (c9_url_classification "https://www.youtube.com/playlist?list=PL1").1
      "https://www.".data "?list=PL1".data (by decide)
  · exact (c9_url_classification "https://www.youtube.com/watch?v=abc&list=PL2").2.1
      "https://www.".data "watch?v=abc&".data "PL2".data (by decide) (by decide)
  · exact (c9_url_classification "https://vimeo.com/showcase/12345").2.2
      "https://".data "12345".data (by decide)

/-- C10: every Vimeo showcase URL is also classified as a Vimeo URL, so
the password field is made visible for showcases. -/
theorem c10_showcase_is_vimeo (url : String)
    (h : is_vimeo_showcase url = true) : is_vimeo_url url = true := by
  unfold is_vimeo_showcase at h
  unfold is_vimeo_url
  have hsplit : "vimeo.com/showcase/".data = "vimeo.com".data ++ "/showcase/".data := by
    decide
  rw [hsplit] at h
  exact containsSub_of_pat_append _ _ _ h

/-- Witness for C10 at a concrete showcase URL. -/
theorem c10_showcase_is_vimeo_witness :
    is_vimeo_url "https://vimeo.com/showcase/7" = true :=
  c10_showcase_is_vimeo "https://vimeo.com/showcase/7" (by decide)

-- Download Configuration (app.py lines 27-89)

/-- One post-processing step descriptor (a Python dict in the source;
`preferedformat` keeps the source's spelling). -/
structure PostProc where
  key : String
  preferredcodec : Option String := none
  preferredquality : Option String := none
  preferedformat : Option String := none
deriving DecidableEq, Repr

/-- The `DownloadConfig` dataclass after `__post_init__` has run.
`preferred_codec` is `none` when the attribute was never set
(the non-audio branch of `__post_init__` does not assign it). -/
structure DownloadConfig where
  url : String
  video_password : Option String := none
  audio_only : Bool := false
  output_dir : String
  format_option : String
  file_extension : String
  preferred_codec : Option String
  post_processors : List PostProc
deriving DecidableEq, Repr

/-- `DownloadConfig(url, video_password, audio_only)` including the body of
`__post_init__` (app.py lines 34-62).  `is_windows` stands for
`platform.system().lower() == "windows"`; the `os.makedirs` side effect is
not modelled.  `output_dir` is a parameter because its default is the
environment-dependent `os.getcwd() + "/downloads"`. -/
def DownloadConfig.make (url : String) (video_password : Option String)
    (audio_only : Bool) (is_windows : Bool) (output_dir : String) : DownloadConfig :=
  if audio_only then
    let codec := if is_windows then "m4a" else "mp3"
    { url := url, video_password := video_password, audio_only := true,
      output_dir := output_dir,
      format_option := "bestaudio", file_extension := codec,
      preferred_codec := some codec,
      post_processors := [{ key := "FFmpegExtractAudio",
                            preferredcodec := some codec,
                            preferredquality := some "192" }] }
  else
    { url := url, video_password := video_password, audio_only := false,
      output_dir := output_dir,
      format_option := "bestvideo+bestaudio", file_extension := "mp4",
      preferred_codec := none,
      post_processors := [{ key := "FFmpegVideoConvertor",
                            preferedformat := some "mp4" }] }

/-- `DownloadConfig.update_to_m4a` (app.py lines 84-89).  The source indexes
`post_processors[0]`; every constructed config carries a one-element list,
so the `[]` branch below is unreachable from `DownloadConfig.make`. -/
def DownloadConfig.update_to_m4a (c : DownloadConfig) : DownloadConfig :=
  if c.audio_only then
    { c with
      post_processors :=
        match c.post_processors with
        | p :: rest => { p with preferredcodec := some "m4a" } :: rest
        | [] => [],
      file_extension := "m4a",
      preferred_codec := some "m4a" }
  else c

/-- C3: on configurations produced by the dataclass constructor,
`update_to_m4a` is idempotent; after a call on an audio-only configuration
the file extension equals the (single) post-processing step's target codec;
and on a non-audio-only configuration the call changes nothing. -/
theorem c3_update_to_m4a_idempotent (url : String) (pw : Option String)
    (ao iw : Bool) (dir : String) :
    ((DownloadConfig.make url pw ao iw dir).update_to_m4a.update_to_m4a
        = (DownloadConfig.make url pw ao iw dir).update_to_m4a)
    ∧ ((DownloadConfig.make url pw true iw dir).update_to_m4a.post_processors.map
          (fun p => p.preferredcodec)
        = [some (DownloadConfig.make url pw true iw dir).update_to_m4a.file_extension])
    ∧ ((DownloadConfig.make url pw false iw dir).update_to_m4a
        = DownloadConfig.make url pw false iw dir) := by
  refine ⟨?_, ?_, ?_⟩
  · cases ao <;> cases iw <;>
      simp [DownloadConfig.make, DownloadConfig.update_to_m4a]
  · cases iw <;>
      simp [DownloadConfig.make, DownloadConfig.update_to_m4a]
  · simp [DownloadConfig.make, DownloadConfig.update_to_m4a]

-- Progress hook (app.py lines 92-135)

/-- The `self.current_video` dict: `{"num": 0, "total": 1, "title": ""}`.
`num` and `total` are Python ints (`num - 1` may go negative), so `Int`. -/
structure VideoState where
  num : Int
  total : Int
  title : String
deriving DecidableEq, Repr

/-- One raw yt-dlp progress event `d`.  Byte counters are optional
(`d.get(...)`); `filename` is optional (`d.get('filename', '')`). -/
structure PEvent where
  status : String
  filename : Option String := none
  downloaded_bytes : Option Nat := none
  total_bytes : Option Nat := none
deriving DecidableEq, Repr

/-- One `self.progress(value, desc=label)` call: `none` is the
indeterminate-progress signal `self.progress(None, ...)`. -/
abbrev Emission := Option ℚ × String

/-- Result of one `progress_hook` invocation.  `raised = true` models the
`KeyError` Python raises at `d['downloaded_bytes']` when the event has a
truthy `total_bytes` but no `downloaded_bytes`; state mutations performed
before the raise (the `title` assignment) are kept. -/
structure HookResult where
  state : VideoState
  emits : List Emission
  raised : Bool
deriving DecidableEq, Repr

/-- Python `d.get(k)` truthiness for an optional int: absent or `0` is falsy. -/
def truthyBytes : Option Nat → Bool
  | some n => n != 0
  | none => false

/-- `d.get('filename', '').split('/')[-1]`: the characters after the last
`'/'` (the whole string when there is no `'/'`). -/
def lastComponent (s : String) : String :=
  ⟨s.data.foldl (fun acc c => if c = '/' then [] else acc ++ [c]) []⟩

/-- `f"{b / 1024 / 1024:.1f}"`: the byte count in MB to one decimal place.
The source formats a Python float; we render the exact rational rounded
half-up, which agrees except on representation/half-even corner cases.
No claim depends on this text. -/
def mbText (b : Nat) : String :=
  let tenths := (b * 10 + 524288) / 1048576
  toString (tenths / 10) ++ "." ++ toString (tenths % 10)

/-- `DownloadManager.progress_hook` (app.py lines 98-135), as a pure step
function of the playlist URL (read from `self.config.url`), the
`current_video` state, and one event. -/
def progress_hook (url : String) (st : VideoState) (d : PEvent) : HookResult :=
  if d.status = "downloading" then
    let filename := lastComponent (d.filename.getD "")
    let multi := is_playlist url && decide (1 < st.total)
    let pre := if multi then
        "Video " ++ toString st.num ++ "/" ++ toString st.total ++ ": "
      else ""
    let st1 := if multi then { st with title := filename } else st
    let noTotal : HookResult :=
      if truthyBytes d.downloaded_bytes then
        let db := d.downloaded_bytes.getD 0
        let label := pre ++ ("Downloading: " ++ filename) ++ " (" ++ mbText db ++ " MB)"
        if multi then
          let overall : ℚ :=
            ((st.num : ℚ) - 1) / (st.total : ℚ) + (1 / 2) / (st.total : ℚ)
          { state := st1, emits := [(some overall, label)], raised := false }
        else
          { state := st1, emits := [(none, label)], raised := false }
      else
        { state := st1, emits := [], raised := false }
    match d.total_bytes with
    | none => noTotal
    | some tb =>
      if tb = 0 then noTotal
      else
        match d.downloaded_bytes with
        | none => { state := st1, emits := [], raised := true }
        | some db =>
          let percentage : ℚ := (db : ℚ) / (tb : ℚ)
          let label := pre ++ ("Downloading: " ++ filename)
          if multi then
            let overall : ℚ := ((st.num : ℚ) - 1 + percentage) / (st.total : ℚ)
            { state := st1, emits := [(some overall, label)], raised := false }
          else
            { state := st1, emits := [(some percentage, label)], raised := false }
  else if d.status = "finished" then
    if is_playlist url && decide (1 < st.total) then
      { state := { st with num := st.num + 1 },
        emits := [(some ((st.num : ℚ) / (st.total : ℚ)),
          "Video " ++ toString st.num ++ "/" ++ toString st.total
            ++ " complete, processing...")],
        raised := false }
    else
      { state := st, emits := [(some 1, "Download complete, processing file...")],
        raised := false }
  else
    { state := st, emits := [], raised := false }

/-- Folding `progress_hook` over a list of events, collecting every
emission; a raised `KeyError` aborts the run (the exception propagates
out of yt-dlp), keeping the emissions made so far. -/
def hookFold (url : String) : VideoState → List PEvent → VideoState × List Emission
  | st, [] => (st, [])
  | st, d :: ds =>
    let r := progress_hook url st d
    if r.raised then (r.state, r.emits)
    else
      let rest := hookFold url r.state ds
      (rest.1, r.emits ++ rest.2)

-- String-level substring helpers used to state label properties

theorem str_ext {a b : String} (h : a.data = b.data) : a = b := by
  cases a; cases b; cases h; rfl

theorem str_data_append (a b : String) : (a ++ b).data = a.data ++ b.data := rfl

theorem strAppend_assoc (a b c : String) : a ++ b ++ c = a ++ (b ++ c) := by
  apply str_ext
  show (a.data ++ b.data) ++ c.data = a.data ++ (b.data ++ c.data)
  exact List.append_assoc a.data b.data c.data

theorem containsSub_self (pat : List Char) : containsSub pat pat = true := by
  have h := containsSub_self_append pat []
  simpa using h

theorem strContains_self_append (pat b : String) :
    strContains pat (pat ++ b) = true :=
  containsSub_self_append pat.data b.data

theorem strContains_append_self (a pat : String) :
    strContains pat (a ++ pat) = true :=
  containsSub_append_right pat.data a.data pat.data (containsSub_self pat.data)

/-- C2: for a `downloading` event carrying a filename, `downloaded_bytes`,
and a truthy `total_bytes`, the hook emits
`((num - 1) + downloaded/total_bytes) / total` with a `"Video num/total: "`
label prefix in a multi-item playlist run, and `downloaded/total_bytes`
with a plain label in a single-item run; both labels contain the event's
filename (its final path component, as the source displays it). -/
theorem c2_downloading_fraction (url : String) (st : VideoState) (fn : String)
    (db tb : Nat) (htb : tb ≠ 0) :
    (is_playlist url = true → 1 < st.total →
      (progress_hook url st
          { status := "downloading", filename := some fn,
            downloaded_bytes := some db, total_bytes := some tb }).emits =
        [(some (((st.num : ℚ) - 1 + (db : ℚ) / (tb : ℚ)) / (st.total : ℚ)),
          ("Video " ++ toString st.num ++ "/" ++ toString st.total ++ ": ")
            ++ ("Downloading: " ++ lastComponent fn))]
      ∧ strContains (lastComponent fn)
          (("Video " ++ toString st.num ++ "/" ++ toString st.total ++ ": ")
            ++ ("Downloading: " ++ lastComponent fn)) = true
      ∧ strContains ("Video " ++ toString st.num ++ "/" ++ toString st.total)
          (("Video " ++ toString st.num ++ "/" ++ toString st.total ++ ": ")
            ++ ("Downloading: " ++ lastComponent fn)) = true)
    ∧ (st.total = 1 →
      (progress_hook url st
          { status := "downloading", filename := some fn,
            downloaded_bytes := some db, total_bytes := some tb }).emits =
        [(some ((db : ℚ) / (tb : ℚ)), "" ++ ("Downloading: " ++ lastComponent fn))]
      ∧ strContains (lastComponent fn)
          ("" ++ ("Downloading: " ++ lastComponent fn)) = true) := by
  constructor
  · intro hpl htot
    refine ⟨?_, ?_, ?_⟩
    · simp [progress_hook, hpl, htot, htb]
    · rw [← strAppend_assoc]
      exact strContains_append_self _ _
    · rw [strAppend_assoc ("Video " ++ toString st.num ++ "/" ++ toString st.total)]
      exact strContains_self_append _ _
  · intro h1
    have hnot : ¬ (1 : Int) < st.total := by omega
    refine ⟨?_, ?_⟩
    · simp [progress_hook, h1, htb, hnot]
    · rw [← strAppend_assoc]
      exact strContains_append_self _ _

/-- Witness for C2: a concrete multi-item playlist event and a concrete
single-item event. -/
theorem c2_downloading_fraction_witness :
    ((progress_hook "https://www.youtube.com/playlist?list=PL" ⟨2, 3, ""⟩
        { status := "downloading", filename := some "dir/f.mp4",
          downloaded_bytes := some 5, total_bytes := some 10 }).emits =
      [(some ((((2 : Int) : ℚ) - 1 + (5 : ℚ) / (10 : ℚ)) / ((3 : Int) : ℚ)),
        ("Video " ++ toString (2 : Int) ++ "/" ++ toString (3 : Int) ++ ": ")
          ++ ("Downloading: " ++ lastComponent "dir/f.mp4"))]
      ∧ strContains (lastComponent "dir/f.mp4")
          (("Video " ++ toString (2 : Int) ++ "/" ++ toString (3 : Int) ++ ": ")
            ++ ("Downloading: " ++ lastComponent "dir/f.mp4")) = true
      ∧ strContains ("Video " ++ toString (2 : Int) ++ "/" ++ toString (3 : Int))
          (("Video " ++ toString (2 : Int) ++ "/" ++ toString (3 : Int) ++ ": ")
            ++ ("Downloading: " ++ lastComponent "dir/f.mp4")) = true)
    ∧ ((progress_hook "https://example.com/v" ⟨0, 1, ""⟩
        { status := "downloading", filename := some "g.mp4",
          downloaded_bytes := some 5, total_bytes := some 10 }).emits =
      [(some ((5 : ℚ) / (10 : ℚ)), "" ++ ("Downloading: " ++ lastComponent "g.mp4"))]
      ∧ strContains (lastComponent "g.mp4")
          ("" ++ ("Downloading: " ++ lastComponent "g.mp4")) = true) :=
  ⟨(c2_downloading_fraction "https://www.youtube.com/playlist?list=PL" ⟨2, 3, ""⟩
      "dir/f.mp4" 5 10 (by decide)).1 (by decide) (by decide),
   (c2_downloading_fraction "https://example.com/v" ⟨0, 1, ""⟩
      "g.mp4" 5 10 (by decide)).2 rfl⟩

/-- C7 counterexample: on a single-item run (`totalItems = 1`, the initial
state `{num = 0, total = 1}`), a `finished` event leaves `num` unchanged
at `0` — it is not incremented, contrary to the claim's "including the
single-item case". -/
theorem c7_counterexample :
    (progress_hook "https://www.youtube.com/watch?v=abc" ⟨0, 1, ""⟩
        { status := "finished" }).state.num = 0
    ∧ ((0 : Int) ≠ 0 + 1) := by
  refine ⟨?_, by decide⟩
  decide

/-- C7 amended: `num` is incremented exactly once per `finished` event in
a multi-item playlist run (`is_playlist` URL and `total > 1`); on a
`finished` event of a single-item run it is left unchanged, and no
non-`finished` event changes it. -/
theorem c7_amended_num_increment (url : String) (st : VideoState) (d : PEvent) :
    (d.status = "finished" → is_playlist url = true → 1 < st.total →
      (progress_hook url st d).state.num = st.num + 1)
    ∧ (d.status = "finished" → ¬(is_playlist url = true ∧ 1 < st.total) →
      (progress_hook url st d).state.num = st.num)
    ∧ (d.status ≠ "finished" → (progress_hook url st d).state.num = st.num) := by
  refine ⟨?_, ?_, ?_⟩
  · intro hs hpl htot
    simp [progress_hook, hs, hpl, htot]
  · intro hs hnot
    by_cases hpl : is_playlist url = true
    · have htot : ¬ (1 : Int) < st.total := fun h => hnot ⟨hpl, h⟩
      simp [progress_hook, hs, hpl, htot]
    · simp [progress_hook, hs, hpl]
  · intro hs
    by_cases hdl : d.status = "downloading"
    · rcases htb : d.total_bytes with _ | tb
      · by_cases hdb : truthyBytes d.downloaded_bytes
        · by_cases hm : is_playlist url && decide (1 < st.total)
          · simp [progress_hook, hdl, htb, hdb, hm]
          · simp [progress_hook, hdl, htb, hdb, hm]
        · by_cases hm : is_playlist url && decide (1 < st.total)
          · simp [progress_hook, hdl, htb, hdb, hm]
          · simp [progress_hook, hdl, htb, hdb, hm]
      · by_cases h0 : tb = 0
        · by_cases hdb : truthyBytes d.downloaded_bytes
          · by_cases hm : is_playlist url && decide (1 < st.total)
            · simp [progress_hook, hdl, htb, h0, hdb, hm]
            · simp [progress_hook, hdl, htb, h0, hdb, hm]
          · by_cases hm : is_playlist url && decide (1 < st.total)
            · simp [progress_hook, hdl, htb, h0, hdb, hm]
            · simp [progress_hook, hdl, htb, h0, hdb, hm]
        · rcases hdb : d.downloaded_bytes with _ | db
          · by_cases hm : is_playlist url && decide (1 < st.total)
            · simp [progress_hook, hdl, htb, h0, hdb, hm]
            · simp [progress_hook, hdl, htb, h0, hdb, hm]
          · by_cases hm : is_playlist url && decide (1 < st.total)
            · simp [progress_hook, hdl, htb, h0, hdb, hm]
            · simp [progress_hook, hdl, htb, h0, hdb, hm]
    · simp [progress_hook, hdl, hs]

/-- Witness for C7 amended at a concrete playlist state and event. -/
theorem c7_amended_num_increment_witness :
    (progress_hook "https://www.youtube.com/playlist?list=PL" ⟨1, 2, ""⟩
        { status := "finished" }).state.num = 1 + 1 :=
  (c7_amended_num_increment "https://www.youtube.com/playlist?list=PL" ⟨1, 2, ""⟩
      { status := "finished" }).1 rfl (by decide) (by decide)

/-- C6 counterexample: fixed `totalItems = 2` and `currentItemIndex = 1`;
two `downloading` events with increasing `downloaded_bytes` (9 then 10),
the first with a known `total_bytes`, the second without, emit fractions
9/20 followed by 1/4 — a strict decrease, so monotonicity fails when
known- and unknown-`total_bytes` events interleave. -/
theorem c6_counterexample :
    (some ((9 : ℚ) / 20), "Video 1/2: Downloading: f")
      ∈ (progress_hook "https://www.youtube.com/playlist?list=PL" ⟨1, 2, ""⟩
          { status := "downloading", filename := some "f",
            downloaded_bytes := some 9, total_bytes := some 10 }).emits
    ∧ (some ((1 : ℚ) / 4), "Video 1/2: Downloading: f (0.0 MB)")
      ∈ (progress_hook "https://www.youtube.com/playlist?list=PL" ⟨1, 2, ""⟩
          { status := "downloading", filename := some "f",
            downloaded_bytes := some 10 }).emits
    ∧ (9 : Nat) ≤ 10
    ∧ ¬ ((9 : ℚ) / 20 ≤ (1 : ℚ) / 4) := by
  refine ⟨?_, ?_, by decide, by norm_num⟩
  · have hpl : is_playlist "https://www.youtube.com/playlist?list=PL" = true := by decide
    simp [progress_hook, hpl, lastComponent]
    exact ⟨by norm_num, by rfl⟩
  · have hpl : is_playlist "https://www.youtube.com/playlist?list=PL" = true := by decide
    simp [progress_hook, hpl, lastComponent, truthyBytes, mbText]
    exact ⟨by norm_num, by rfl⟩


/-- C6 amended: for a fixed state (fixed `totalItems` and
`currentItemIndex`) and two `downloading` events that share the same known
(truthy) `total_bytes`, the emitted overall fractions are non-decreasing in
`downloaded_bytes`; monotonicity does not survive interleaving with
unknown-`total_bytes` events (see the counterexample). -/
theorem c6_amended_monotone (url : String) (st : VideoState) (f1 f2 : String)
    (db1 db2 tb : Nat) (htb : tb ≠ 0) (hdb : db1 ≤ db2) :
    ∀ q1 l1 q2 l2,
      (some q1, l1) ∈ (progress_hook url st
          { status := "downloading", filename := some f1,
            downloaded_bytes := some db1, total_bytes := some tb }).emits →
      (some q2, l2) ∈ (progress_hook url st
          { status := "downloading", filename := some f2,
            downloaded_bytes := some db2, total_bytes := some tb }).emits →
      q1 ≤ q2 := by
  intro q1 l1 q2 l2 h1 h2
  have htbq : (0 : ℚ) < (tb : ℚ) := by
    exact_mod_cast Nat.pos_of_ne_zero htb
  have hfrac : ((db1 : ℚ) / (tb : ℚ)) ≤ ((db2 : ℚ) / (tb : ℚ)) :=
    (div_le_div_iff_of_pos_right htbq).mpr (by exact_mod_cast hdb)
  by_cases hm : is_playlist url && decide (1 < st.total)
  · have htot : (1 : Int) < st.total := by
      have := (Bool.and_eq_true _ _).mp hm |>.2
      exact of_decide_eq_true this
    have htq : (0 : ℚ) < ((st.total : Int) : ℚ) := by
      exact_mod_cast lt_trans Int.zero_lt_one htot
    simp [progress_hook, htb, hm] at h1 h2
    rw [h1.1, h2.1]
    exact (div_le_div_iff_of_pos_right htq).mpr (by linarith)
  · simp [progress_hook, htb, hm] at h1 h2
    rw [h1.1, h2.1]
    exact hfrac

/-- Witness for C6 amended at concrete events (9/10 then 10/10 of a
2-item playlist's first item). -/
theorem c6_amended_monotone_witness : (9 : ℚ) / 20 ≤ (1 : ℚ) / 2 :=
  c6_amended_monotone "https://www.youtube.com/playlist?list=PL" ⟨1, 2, ""⟩ "f" "f"
    9 10 10 (by decide) (by decide)
    ((9 : ℚ) / 20) "Video 1/2: Downloading: f" ((1 : ℚ) / 2) "Video 1/2: Downloading: f"
    (by
      have hpl : is_playlist "https://www.youtube.com/playlist?list=PL" = true := by decide
      simp [progress_hook, hpl, lastComponent]
      norm_num
      rfl)
    (by
      have hpl : is_playlist "https://www.youtube.com/playlist?list=PL" = true := by decide
      simp [progress_hook, hpl, lastComponent]
      rfl)

/-- C5 counterexample.  First: a single-item `downloading` event reporting
more downloaded than total bytes (2 of 1) makes the hook emit the fraction
2 > 1.  Second: from the post-probe state `{num = 1, total = 2}` of a
2-item playlist, two `finished` events drive the counter to `num = 3`
(a reachable state), after which a `downloading` event makes the hook
emit 5/4 > 1. -/
theorem c5_counterexample :
    (¬ ((2 : ℚ) ≤ 1)
      ∧ (some (2 : ℚ), "Downloading: ")
          ∈ (progress_hook "https://example.com/v" ⟨0, 1, ""⟩
              { status := "downloading", filename := none,
                downloaded_bytes := some 2, total_bytes := some 1 }).emits)
    ∧ ((hookFold "https://www.youtube.com/playlist?list=PL" ⟨1, 2, ""⟩
          [{ status := "finished" }, { status := "finished" }]).1
        = ⟨3, 2, ""⟩
      ∧ ¬ ((5 : ℚ) / 4 ≤ 1)
      ∧ (some ((5 : ℚ) / 4), "Video 3/2: Downloading: f")
          ∈ (progress_hook "https://www.youtube.com/playlist?list=PL" ⟨3, 2, ""⟩
              { status := "downloading", filename := some "f",
                downloaded_bytes := some 1, total_bytes := some 2 }).emits) := by
  refine ⟨⟨by norm_num, ?_⟩, ?_, by norm_num, ?_⟩
  · have hpl : is_playlist "https://example.com/v" = false := by decide
    simp [progress_hook, hpl, lastComponent]
  · have hpl : is_playlist "https://www.youtube.com/playlist?list=PL" = true := by decide
    simp [hookFold, progress_hook, hpl]
  · have hpl : is_playlist "https://www.youtube.com/playlist?list=PL" = true := by decide
    simp [progress_hook, hpl, lastComponent]
    all_goals first
    | rfl
    | norm_num
    all_goals rfl

/-- C5 amended: every numeric fraction the hook emits lies in `[0, 1]`
provided (a) the counter state is within its intended range
(`1 ≤ num ≤ total` whenever the multi-item branch is active, as holds
from the probe-initialised state until `totalItems` items have finished)
and (b) the event does not report more downloaded than total bytes.
Without these restrictions the claim fails (see the counterexample). -/
theorem c5_amended_fraction_bounds (url : String) (st : VideoState) (d : PEvent)
    (hstate : is_playlist url = true → 1 < st.total → 1 ≤ st.num ∧ st.num ≤ st.total)
    (hbytes : ∀ tb db, d.total_bytes = some tb → tb ≠ 0 →
        d.downloaded_bytes = some db → db ≤ tb) :
    ∀ q l, (some q, l) ∈ (progress_hook url st d).emits → 0 ≤ q ∧ q ≤ 1 := by
  intro q l hmem
  by_cases hdl : d.status = "downloading"
  · by_cases hm : is_playlist url && decide (1 < st.total)
    · have hpl := ((Bool.and_eq_true _ _).mp hm).1
      have htot : (1 : Int) < st.total :=
        of_decide_eq_true ((Bool.and_eq_true _ _).mp hm).2
      obtain ⟨hnum1, hnum2⟩ := hstate hpl htot
      have htq : (0 : ℚ) < (st.total : ℚ) := by
        exact_mod_cast lt_trans Int.zero_lt_one htot
      have hn1 : (1 : ℚ) ≤ ((st.num : Int) : ℚ) := by exact_mod_cast hnum1
      have hn2 : ((st.num : Int) : ℚ) ≤ ((st.total : Int) : ℚ) := by
        exact_mod_cast hnum2
      rcases htb : d.total_bytes with _ | tb
      · by_cases hdb : truthyBytes d.downloaded_bytes
        · simp [progress_hook, hdl, htb, hdb, hm] at hmem
          obtain ⟨hq, -⟩ := hmem
          subst hq
          rw [div_add_div_same]
          constructor
          · apply div_nonneg _ htq.le
            linarith
          · rw [div_le_one htq]
            linarith
        · simp [progress_hook, hdl, htb, hdb] at hmem
      · by_cases h0 : tb = 0
        · by_cases hdb : truthyBytes d.downloaded_bytes
          · simp [progress_hook, hdl, htb, h0, hdb, hm] at hmem
            obtain ⟨hq, -⟩ := hmem
            subst hq
            rw [div_add_div_same]
            constructor
            · apply div_nonneg _ htq.le
              linarith
            · rw [div_le_one htq]
              linarith
          · simp [progress_hook, hdl, htb, h0, hdb] at hmem
        · rcases hdb : d.downloaded_bytes with _ | db
          · simp [progress_hook, hdl, htb, h0, hdb] at hmem
          · have hle : db ≤ tb := hbytes tb db htb h0 hdb
            have htbq : (0 : ℚ) < (tb : ℚ) := by
              exact_mod_cast Nat.pos_of_ne_zero h0
            have hp0 : (0 : ℚ) ≤ (db : ℚ) / (tb : ℚ) :=
              div_nonneg (by positivity) htbq.le
            have hp1 : (db : ℚ) / (tb : ℚ) ≤ 1 :=
              (div_le_one htbq).mpr (by exact_mod_cast hle)
            simp [progress_hook, hdl, htb, h0, hdb, hm] at hmem
            obtain ⟨hq, -⟩ := hmem
            subst hq
            constructor
            · apply div_nonneg _ htq.le
              linarith
            · rw [div_le_one htq]
              linarith
    · rcases htb : d.total_bytes with _ | tb
      · by_cases hdb : truthyBytes d.downloaded_bytes
        · simp [progress_hook, hdl, htb, hdb, hm] at hmem
        · simp [progress_hook, hdl, htb, hdb] at hmem
      · by_cases h0 : tb = 0
        · by_cases hdb : truthyBytes d.downloaded_bytes
          · simp [progress_hook, hdl, htb, h0, hdb, hm] at hmem
          · simp [progress_hook, hdl, htb, h0, hdb] at hmem
        · rcases hdb : d.downloaded_bytes with _ | db
          · simp [progress_hook, hdl, htb, h0, hdb] at hmem
          · have hle : db ≤ tb := hbytes tb db htb h0 hdb
            have htbq : (0 : ℚ) < (tb : ℚ) := by
              exact_mod_cast Nat.pos_of_ne_zero h0
            simp [progress_hook, hdl, htb, h0, hdb, hm] at hmem
            obtain ⟨hq, -⟩ := hmem
            subst hq
            exact ⟨div_nonneg (by positivity) htbq.le,
              (div_le_one htbq).mpr (by exact_mod_cast hle)⟩
  · by_cases hf : d.status = "finished"
    · by_cases hm : is_playlist url && decide (1 < st.total)
      · have hpl := ((Bool.and_eq_true _ _).mp hm).1
        have htot : (1 : Int) < st.total :=
          of_decide_eq_true ((Bool.and_eq_true _ _).mp hm).2
        obtain ⟨hnum1, hnum2⟩ := hstate hpl htot
        have htq : (0 : ℚ) < (st.total : ℚ) := by
          exact_mod_cast lt_trans Int.zero_lt_one htot
        have hn1 : (1 : ℚ) ≤ ((st.num : Int) : ℚ) := by exact_mod_cast hnum1
        have hn2 : ((st.num : Int) : ℚ) ≤ ((st.total : Int) : ℚ) := by
          exact_mod_cast hnum2
        simp [progress_hook, hdl, hf, hm] at hmem
        obtain ⟨hq, -⟩ := hmem
        subst hq
        exact ⟨div_nonneg (by linarith) htq.le, (div_le_one htq).mpr hn2⟩
      · simp [progress_hook, hdl, hf, hm] at hmem
        obtain ⟨hq, -⟩ := hmem
        subst hq
        norm_num
    · simp [progress_hook, hdl, hf] at hmem

/-- Witness for C5 amended at a concrete in-range state and event. -/
theorem c5_amended_fraction_bounds_witness :
    0 ≤ (1 : ℚ) / 2 ∧ (1 : ℚ) / 2 ≤ 1 :=
  c5_amended_fraction_bounds "https://example.com/v" ⟨0, 1, ""⟩
    { status := "downloading", filename := some "g",
      downloaded_bytes := some 5, total_bytes := some 10 }
    (by intro hpl htot; exact absurd htot (by decide))
    (by intro tb db htb h0 hdb
        cases htb; cases hdb; decide)
    ((1 : ℚ) / 2) "Downloading: g"
    (by
      have hpl : is_playlist "https://example.com/v" = false := by decide
      simp [progress_hook, hpl, lastComponent]
      norm_num)

-- Download orchestration and result formatting (app.py lines 137-256)

/-- One playlist entry's metadata (`entry['title']`). -/
structure Entry where
  title : String
deriving DecidableEq, Repr

/-- The metadata dict returned by `ydl.extract_info`: `entries` is present
exactly for playlists, and a `none` element marks a private/unavailable
item.  Only the keys the orchestrator reads are modelled. -/
structure Info where
  title : Option String := none
  entries : Option (List (Option Entry)) := none
deriving DecidableEq, Repr

/-- `os.path.join(dir, name)` for a relative `name` on a POSIX system. -/
def pathJoin (a b : String) : String :=
  if a = "" then b
  else if a.data.getLast? = some '/' then a ++ b
  else a ++ "/" ++ b

/-- `DownloadManager._format_playlist_result` (app.py lines 213-236).
The two `info[...]` direct-key accesses are guarded by the caller
(`'entries' in info`) and by yt-dlp always returning a title, so the
`getD` defaults are unreachable. -/
def format_playlist_result (cfg : DownloadConfig) (info : Info) : String :=
  let entries := info.entries.getD []
  let playlist_title := info.title.getD "Unknown"
  let entry_count := (entries.filter Option.isSome).length
  let total_entries := entries.length
  let skipped_count := total_entries - entry_count
  let noun := if cfg.audio_only then "audio tracks" else "videos"
  let header :=
    "Playlist title: " ++ playlist_title ++ "\n"
      ++ "Number of " ++ noun ++ ": " ++ toString entry_count
      ++ " (downloaded) / " ++ toString total_entries ++ " (total)\n"
      ++ (if skipped_count > 0 then
            "Skipped " ++ toString skipped_count ++ " private or unavailable items\n"
          else "")
      ++ "\n"
  let line := fun (i : Nat) (entry : Option Entry) =>
    match entry with
    | some e =>
      toString (i + 1) ++ ". " ++ e.title ++ " - Downloaded to: "
        ++ pathJoin cfg.output_dir (e.title ++ "." ++ cfg.file_extension) ++ "\n"
    | none => toString (i + 1) ++ ". [Private or unavailable item - skipped]\n"
  header ++ String.join (entries.enum.map (fun p => line p.1 p.2))

/-- `DownloadManager._format_single_video_result` (app.py lines 238-241);
`info['title']` is a direct access, present on every real single-video
info dict. -/
def format_single_video_result (cfg : DownloadConfig) (info : Info) : String :=
  "Downloaded to: "
    ++ pathJoin cfg.output_dir ((info.title.getD "") ++ "." ++ cfg.file_extension)

/-- `DownloadManager._create_notification` (app.py lines 243-256). -/
def create_notification (cfg : DownloadConfig) (info : Info) : String :=
  match info.entries with
  | some entries =>
    if is_playlist cfg.url then
      let entry_count := (entries.filter Option.isSome).length
      let total_entries := entries.length
      let skipped_count := total_entries - entry_count
      let noun := if cfg.audio_only then "audio tracks" else "videos"
      if skipped_count > 0 then
        "Download complete! " ++ toString entry_count ++ " " ++ noun
          ++ " downloaded, " ++ toString skipped_count ++ " skipped."
      else
        "Download complete! " ++ toString entry_count ++ " " ++ noun ++ " downloaded."
    else "Download complete!"
  | none => "Download complete!"

/-- `DownloadManager._perform_download` (app.py lines 186-211) with the two
`ydl.extract_info` calls abstracted as oracle results: `probeInfo` is the
`download=False` result, `dlInfo` the `download=True` result.  Returns the
`current_video` state as updated by the probe phase (before downloading
begins) and the result message built from `dlInfo`. -/
def perform_download (cfg : DownloadConfig) (st : VideoState)
    (probeInfo dlInfo : Info) : VideoState × String :=
  let st1 :=
    match probeInfo.entries with
    | some entries =>
      if is_playlist cfg.url then
        { st with total := ((entries.filter Option.isSome).length : Int), num := 1 }
      else st
    | none => st
  let result_message :=
    match dlInfo.entries with
    | some _ => format_playlist_result cfg dlInfo
    | none => format_single_video_result cfg dlInfo
  (st1, result_message)

/-- The lowercased-message test of app.py lines 159-161: does the failure
message indicate an audio-conversion/encoder problem?  Character-wise
`Char.toLower` models `str.lower()` (they agree on ASCII error text). -/
def isAudioConvError (e : String) : Bool :=
  let s : List Char := e.data.map Char.toLower
  containsSub "mp3".data s || containsSub "audio conversion failed".data s
    || containsSub "encoder not found".data s || containsSub "postprocessor".data s

/-- The error text built at app.py lines 179-183. -/
def failureText (cfg : DownloadConfig) (e : String) : String :=
  let base := "Error: " ++ e
  if is_playlist cfg.url then
    let base := base
      ++ "\n\nFor playlists, some videos might be unavailable or restricted."
    if is_vimeo_showcase cfg.url then
      base ++ "\nFor Vimeo showcases, make sure you have the correct password if it's protected."
    else base
  else base

/-- A Gradio notification: `gr.Success(msg)` or `gr.Warning(msg)`. -/
inductive Notif where
  | success (msg : String)
  | warning (msg : String)
deriving DecidableEq, Repr

/-- The observable outcome of one `DownloadManager.download` run:
the result text, the notification (`none` for the early empty-URL
return), the number of `_perform_download` invocations, the final
`self.config`, and the orchestrator-level progress calls (those made in
`download` itself; calls made inside `_perform_download`/the hook belong
to the oracle). -/
structure RunOutput where
  text : String
  notif : Option Notif
  attempts : Nat
  finalConfig : DownloadConfig
  progress : List Emission
deriving DecidableEq, Repr

/-- `DownloadManager.download` (app.py lines 137-184).  `attempt n cfg` is
the oracle for the `n`-th `_perform_download()` call (0-based), run against
the current `self.config`; `.error e` models an exception with message
`str(e) = e`, `.ok (info, msg)` a normal return.  The initial
`result_message` built for playlists at line 149 is overwritten by the
assignment at line 156/165 and never reaches the output, so it is omitted. -/
def DownloadManager.download (cfg : DownloadConfig)
    (attempt : Nat → DownloadConfig → Except String (Info × String)) : RunOutput :=
  if cfg.url = "" then
    { text := "Please enter a URL", notif := none, attempts := 0,
      finalConfig := cfg, progress := [] }
  else
    let p0 : Emission := (some 0, "Starting download...")
    let playlistType :=
      if is_vimeo_showcase cfg.url then "Vimeo showcase" else "YouTube playlist"
    let p1 : Emission :=
      if is_playlist cfg.url then
        (some (1 / 100 : ℚ), "Processing " ++ playlistType ++ " - this may take longer...")
      else (some (1 / 100 : ℚ), "Extracting video information...")
    match attempt 0 cfg with
    | Except.ok (info, msg) =>
      { text := msg, notif := some (Notif.success (create_notification cfg info)),
        attempts := 1, finalConfig := cfg,
        progress := [p0, p1, (some 1, "Download complete!")] }
    | Except.error e =>
      if cfg.audio_only && isAudioConvError e then
        let p2 : Emission :=
          (some (1 / 10 : ℚ), "MP3 conversion failed, trying M4A format instead...")
        let cfg2 := cfg.update_to_m4a
        match attempt 1 cfg2 with
        | Except.ok (info, msg) =>
          { text := msg ++ "\nNote: Using M4A format instead of MP3 for better compatibility",
            notif := some (Notif.success (create_notification cfg2 info)),
            attempts := 2, finalConfig := cfg2,
            progress := [p0, p1, p2, (some 1, "Download complete!")] }
        | Except.error e2 =>
          { text := failureText cfg2 e2,
            notif := some (Notif.warning "Download failed. See details in the result box."),
            attempts := 2, finalConfig := cfg2, progress := [p0, p1, p2] }
      else
        { text := failureText cfg e,
          notif := some (Notif.warning "Download failed. See details in the result box."),
          attempts := 1, finalConfig := cfg, progress := [p0, p1] }

/-- Number of positions of `s` at which `pat` occurs as a substring. -/
def countSub (pat : List Char) : List Char → Nat
  | [] => if pat.isEmpty then 1 else 0
  | c :: t => (if pat.isPrefixOf (c :: t) then 1 else 0) + countSub pat t

theorem strContains_append_inner (pat m a b : String) :
    strContains pat (m ++ (a ++ pat ++ b)) = true := by
  unfold strContains
  show containsSub pat.data (m.data ++ ((a.data ++ pat.data) ++ b.data)) = true
  exact containsSub_append_right pat.data m.data _
    (containsSub_of_decomp pat.data a.data b.data)

/-- C4: an empty request URL is rejected immediately: the run returns the
empty-URL failure text with no notification, makes zero calls into the
external library (no probe, no download), and emits no progress event. -/
theorem c4_empty_url_early_return (cfg : DownloadConfig)
    (attempt : Nat → DownloadConfig → Except String (Info × String))
    (h : cfg.url = "") :
    DownloadManager.download cfg attempt =
      { text := "Please enter a URL", notif := none, attempts := 0,
        finalConfig := cfg, progress := [] } := by
  simp [DownloadManager.download, h]

/-- Witness for C4 at a concrete empty-URL configuration. -/
theorem c4_empty_url_early_return_witness :
    DownloadManager.download (DownloadConfig.make "" none false false "downloads")
      (fun _ _ => Except.error "never called") =
      { text := "Please enter a URL", notif := none, attempts := 0,
        finalConfig := DownloadConfig.make "" none false false "downloads",
        progress := [] } :=
  c4_empty_url_early_return (DownloadConfig.make "" none false false "downloads")
    (fun _ _ => Except.error "never called") rfl

/-- C1: the audio fallback policy.  On an audio-only run whose first
attempt fails with a message matching the known substrings (lowercased),
the config is demoted via `update_to_m4a` and exactly one retry runs
against the demoted config; a successful retry yields a success whose
text carries the fallback note.  A non-matching failure, a failure on a
non-audio-only run, and a failure of the retry itself each yield a
Failure outcome (warning notification) with no further retry. -/
theorem c1_audio_fallback_policy (cfg : DownloadConfig)
    (attempt : Nat → DownloadConfig → Except String (Info × String))
    (hurl : cfg.url ≠ "") :
    (∀ e info msg, cfg.audio_only = true → isAudioConvError e = true →
      attempt 0 cfg = Except.error e →
      attempt 1 cfg.update_to_m4a = Except.ok (info, msg) →
      (DownloadManager.download cfg attempt).attempts = 2
      ∧ (DownloadManager.download cfg attempt).finalConfig = cfg.update_to_m4a
      ∧ (DownloadManager.download cfg attempt).text
          = msg ++ "\nNote: Using M4A format instead of MP3 for better compatibility"
      ∧ strContains "Note: Using M4A format instead of MP3"
          (DownloadManager.download cfg attempt).text = true
      ∧ (DownloadManager.download cfg attempt).notif
          = some (Notif.success (create_notification cfg.update_to_m4a info)))
    ∧ (∀ e, isAudioConvError e = false → attempt 0 cfg = Except.error e →
      (DownloadManager.download cfg attempt).attempts = 1
      ∧ (DownloadManager.download cfg attempt).text = failureText cfg e
      ∧ (DownloadManager.download cfg attempt).notif
          = some (Notif.warning "Download failed. See details in the result box."))
    ∧ (∀ e, cfg.audio_only = false → attempt 0 cfg = Except.error e →
      (DownloadManager.download cfg attempt).attempts = 1
      ∧ (DownloadManager.download cfg attempt).text = failureText cfg e
      ∧ (DownloadManager.download cfg attempt).notif
          = some (Notif.warning "Download failed. See details in the result box."))
    ∧ (∀ e e2, cfg.audio_only = true → isAudioConvError e = true →
      attempt 0 cfg = Except.error e →
      attempt 1 cfg.update_to_m4a = Except.error e2 →
      (DownloadManager.download cfg attempt).attempts = 2
      ∧ (DownloadManager.download cfg attempt).text = failureText cfg.update_to_m4a e2
      ∧ (DownloadManager.download cfg attempt).notif
          = some (Notif.warning "Download failed. See details in the result box.")) := by
  refine ⟨?_, ?_, ?_, ?_⟩
  · intro e info msg h1 h2 h3 h4
    have hnote :
        ("\nNote: Using M4A format instead of MP3 for better compatibility" : String)
          = "\n" ++ "Note: Using M4A format instead of MP3"
              ++ " for better compatibility" := rfl
    refine ⟨?_, ?_, ?_, ?_, ?_⟩ <;>
      simp [DownloadManager.download, hurl, h1, h2, h3, h4]
    rw [hnote]
    exact strContains_append_inner _ msg "\n" " for better compatibility"
  · intro e h2 h3
    refine ⟨?_, ?_, ?_⟩ <;>
      simp [DownloadManager.download, hurl, h2, h3]
  · intro e h1 h3
    refine ⟨?_, ?_, ?_⟩ <;>
      simp [DownloadManager.download, hurl, h1, h3]
  · intro e e2 h1 h2 h3 h4
    refine ⟨?_, ?_, ?_⟩ <;>
      simp [DownloadManager.download, hurl, h1, h2, h3, h4]

/-- Concrete audio-only configuration for exercising the fallback policy. -/
def c1cfgAudio : DownloadConfig :=
  DownloadConfig.make "https://www.youtube.com/watch?v=abc" none true false "downloads"

/-- Concrete video configuration (audio_only = false). -/
def c1cfgVideo : DownloadConfig :=
  DownloadConfig.make "https://www.youtube.com/watch?v=abc" none false false "downloads"

/-- Concrete single-video info returned by the retry oracle. -/
def c1infoSong : Info := { title := some "Song" }

/-- Oracle: first attempt raises an audio-conversion failure, the retry
succeeds. -/
def c1attemptRetryOk : Nat → DownloadConfig → Except String (Info × String) :=
  fun n _ =>
    if n = 0 then Except.error "ERROR: audio conversion failed"
    else Except.ok (c1infoSong, "Downloaded to: downloads/Song.mp3")

/-- Oracle: every attempt raises a failure unrelated to audio conversion. -/
def c1attemptOther : Nat → DownloadConfig → Except String (Info × String) :=
  fun _ _ => Except.error "HTTP Error 403: Forbidden"

/-- Oracle: first attempt raises an audio-conversion failure, the retry
fails too. -/
def c1attemptRetryFail : Nat → DownloadConfig → Except String (Info × String) :=
  fun n _ =>
    if n = 0 then Except.error "mp3 encoder not found"
    else Except.error "ffmpeg crashed"

/-- Witness for C1: all four cases of the fallback policy at concrete
configurations and oracles. -/
theorem c1_audio_fallback_policy_witness :
    ((DownloadManager.download c1cfgAudio c1attemptRetryOk).attempts = 2
      ∧ (DownloadManager.download c1cfgAudio c1attemptRetryOk).finalConfig
          = c1cfgAudio.update_to_m4a
      ∧ (DownloadManager.download c1cfgAudio c1attemptRetryOk).text
          = "Downloaded to: downloads/Song.mp3"
              ++ "\nNote: Using M4A format instead of MP3 for better compatibility"
      ∧ strContains "Note: Using M4A format instead of MP3"
          (DownloadManager.download c1cfgAudio c1attemptRetryOk).text = true
      ∧ (DownloadManager.download c1cfgAudio c1attemptRetryOk).notif
          = some (Notif.success (create_notification c1cfgAudio.update_to_m4a c1infoSong)))
    ∧ ((DownloadManager.download c1cfgAudio c1attemptOther).attempts = 1
      ∧ (DownloadManager.download c1cfgAudio c1attemptOther).text
          = failureText c1cfgAudio "HTTP Error 403: Forbidden"
      ∧ (DownloadManager.download c1cfgAudio c1attemptOther).notif
          = some (Notif.warning "Download failed. See details in the result box."))
    ∧ ((DownloadManager.download c1cfgVideo c1attemptOther).attempts = 1
      ∧ (DownloadManager.download c1cfgVideo c1attemptOther).text
          = failureText c1cfgVideo "HTTP Error 403: Forbidden"
      ∧ (DownloadManager.download c1cfgVideo c1attemptOther).notif
          = some (Notif.warning "Download failed. See details in the result box."))
    ∧ ((DownloadManager.download c1cfgAudio c1attemptRetryFail).attempts = 2
      ∧ (DownloadManager.download c1cfgAudio c1attemptRetryFail).text
          = failureText c1cfgAudio.update_to_m4a "ffmpeg crashed"
      ∧ (DownloadManager.download c1cfgAudio c1attemptRetryFail).notif
          = some (Notif.warning "Download failed. See details in the result box.")) :=
  ⟨(c1_audio_fallback_policy c1cfgAudio c1attemptRetryOk (by decide)).1
      "ERROR: audio conversion failed" c1infoSong "Downloaded to: downloads/Song.mp3"
      rfl (by decide) rfl rfl,
   (c1_audio_fallback_policy c1cfgAudio c1attemptOther (by decide)).2.1
      "HTTP Error 403: Forbidden" (by decide) rfl,
   (c1_audio_fallback_policy c1cfgVideo c1attemptOther (by decide)).2.2.1
      "HTTP Error 403: Forbidden" rfl rfl,
   (c1_audio_fallback_policy c1cfgAudio c1attemptRetryFail (by decide)).2.2.2
      "mp3 encoder not found" "ffmpeg crashed" rfl (by decide) rfl rfl⟩

/-- Concrete playlist configuration for the skipped-entry scenario. -/
def c8cfg : DownloadConfig :=
  DownloadConfig.make "https://www.youtube.com/playlist?list=PLx" none false false "downloads"

/-- Probe/download metadata: 3 entries, entry 2 inaccessible (`None`). -/
def c8info : Info :=
  { title := some "My List",
    entries := some [some ⟨"Alpha"⟩, none, some ⟨"Gamma"⟩] }

set_option maxRecDepth 4096 in
/-- C8: for a playlist whose probe lists 3 entries with entry 2 null,
`total` is set to the accessible count 2 (and `num` to 1) before the
download begins; the formatted summary reports "2 (downloaded) / 3
(total)" and contains exactly one skipped-item line, at position 2; and
the notification reports 2 downloaded and 1 skipped. -/
theorem c8_playlist_skipped_summary :
    ((perform_download c8cfg ⟨0, 1, ""⟩ c8info c8info).1.total = 2
      ∧ (perform_download c8cfg ⟨0, 1, ""⟩ c8info c8info).1.num = 1)
    ∧ strContains "2 (downloaded) / 3 (total)"
        (perform_download c8cfg ⟨0, 1, ""⟩ c8info c8info).2 = true
    ∧ countSub "[Private or unavailable item - skipped]".data
        (perform_download c8cfg ⟨0, 1, ""⟩ c8info c8info).2.data = 1
    ∧ strContains "2. [Private or unavailable item - skipped]"
        (perform_download c8cfg ⟨0, 1, ""⟩ c8info c8info).2 = true
    ∧ strContains "Skipped 1 private or unavailable items"
        (perform_download c8cfg ⟨0, 1, ""⟩ c8info c8info).2 = true
    ∧ create_notification c8cfg c8info
        = "Download complete! 2 videos downloaded, 1 skipped." := by
  refine ⟨⟨?_, ?_⟩, ?_, ?_, ?_, ?_, ?_⟩ <;> decide
